import Mathlib

/-
  Verification development for the XSensMVN motion-capture driver
  (wearables repository, header src/XSensMVN/include/XSensMVNDriver.h).

  The repository provides the declaration-only header XSensMVNDriver.h:
  the data model (LinkData, SensorData, JointData, DriverDataSample,
  DriverDataStreamConfig, DriverConfiguration, DriverStatus) and the
  public API surface of class XSensMVNDriver. The implementation file
  (XSensMVNDriver.cpp / XSensMVNDriverImpl) and the header
  XSensCalibrationQualities.h are not part of the provided sources, so
  every behavioral definition below is modelled from the specification
  and marked as such in its doc comment. The data-model shapes are
  translated directly from the header.

  Conventions of the shallow embedding:
  - C++ double is modelled as Rat (the claims only store, copy and
    compare these scalars; no floating-point arithmetic is claimed).
  - std::vector is modelled as List, std::array of size 3 and 4 as
    3- and 4-tuples, std::map from string to double as an association
    list (BodyDimensions).
  - const member accessors become pure functions from the driver state;
    mutating members become functions returning Bool cross DriverState
    (the C++ bool result paired with the post state); cacheData, which
    returns void, becomes a function DriverState to DriverState.
  - The asynchronous vendor capability is modelled by explicit inputs:
    the scan outcome is a VendorScanOutcome argument of
    configureAndConnect, the completed-calibration quality report is a
    CalibrationQuality argument of calibrate, and a streaming frame
    arriving from the vendor callback is the producerDeliver function.
-/

namespace xsensmvn

/- ------------------------------------------------------------------ -/
/- Data model (translated from XSensMVNDriver.h)                      -/
/- ------------------------------------------------------------------ -/

/-- Modelled from the spec: CalibrationQuality is declared in
XSensCalibrationQualities.h, which is not among the provided sources.
The spec describes it as an ordered quality grade
Excellent > Good > Acceptable > Poor > Failed. -/
inductive CalibrationQuality
  | Failed
  | Poor
  | Acceptable
  | Good
  | Excellent
  deriving DecidableEq

/-- Rank of a quality grade on the ordered scale of the spec:
Excellent > Good > Acceptable > Poor > Failed. -/
def qualityRank : CalibrationQuality → Nat
  | .Failed => 0
  | .Poor => 1
  | .Acceptable => 2
  | .Good => 3
  | .Excellent => 4

/-- Modelled from the spec: the calibration quality policy
isAcceptable(reported, minimum), true iff reported is ranked at or
above minimum on the ordered quality scale (spec section 4.2). The
implementation is not among the provided sources. -/
def isAcceptable (reported minimum : CalibrationQuality) : Bool :=
  qualityRank minimum ≤ qualityRank reported

/-- using Vector3 = std::array of 3 double -/
abbrev Vector3 := Rat × Rat × Rat

/-- using Quaternion = std::array of 4 double -/
abbrev Quaternion := Rat × Rat × Rat × Rat

/-- using bodyDimensions = std::map from std::string to double,
modelled as an association list with string keys. -/
abbrev BodyDimensions := List (String × Rat)

/-- struct LinkData of XSensMVNDriver.h -/
structure LinkData where
  name : String
  position : Vector3
  linearVelocity : Vector3
  linearAcceleration : Vector3
  orientation : Quaternion
  angularVelocity : Vector3
  angularAcceleration : Vector3
  deriving DecidableEq

/-- struct SensorData of XSensMVNDriver.h -/
structure SensorData where
  name : String
  position : Vector3
  orientation : Quaternion
  freeBodyAcceleration : Vector3
  magneticField : Vector3
  deriving DecidableEq

/-- struct JointData of XSensMVNDriver.h -/
structure JointData where
  name : String
  jointAngles : Vector3
  deriving DecidableEq

/-- struct DriverDataSample of XSensMVNDriver.h -/
structure DriverDataSample where
  suitName : String
  relativeTime : Rat
  absoluteTime : Rat
  links : List LinkData
  sensors : List SensorData
  joints : List JointData
  deriving DecidableEq

/-- struct DriverDataStreamConfig of XSensMVNDriver.h -/
structure DriverDataStreamConfig where
  enableLinkData : Bool
  enableSensorData : Bool
  enableJointData : Bool
  deriving DecidableEq

/-- struct DriverConfiguration of XSensMVNDriver.h: immutable session
parameters, fixed at construction. -/
structure DriverConfiguration where
  licensePath : String
  suitConfiguration : String
  acquisitionScenario : String
  defaultCalibrationType : String
  minimumRequiredCalibrationQuality : CalibrationQuality
  scanTimeout : Int
  bodyDimensions : BodyDimensions
  dataStreamConfiguration : DriverDataStreamConfig
  deriving DecidableEq

/-- enum class DriverStatus of XSensMVNDriver.h -/
inductive DriverStatus
  | Disconnected
  | Scanning
  | Connected
  | Calibrating
  | CalibratedAndReadyToRecord
  | Recording
  | Unknown
  deriving DecidableEq

/- ------------------------------------------------------------------ -/
/- Driver state                                                        -/
/- ------------------------------------------------------------------ -/

/-- Modelled from the spec: the hidden implementation state behind the
m_pimpl opaque pointer of XSensMVNDriver (XSensMVNDriverImpl is not
among the provided sources). Following spec section 9, the driver is a
struct owning the state-machine status field, the mutable minimum
acceptable calibration quality, the body dimensions, the suit label
lists fixed at connection time, and the double-buffered sample: a
producer-side buffer written by the vendor callback and the
consumer-side cached buffer m_dataSample declared in the header. -/
structure DriverState where
  config : DriverConfiguration
  status : DriverStatus
  minQuality : CalibrationQuality
  bodyDims : BodyDimensions
  linkLabels : List String
  sensorLabels : List String
  jointLabels : List String
  producerSample : DriverDataSample
  cachedSample : DriverDataSample
  deriving DecidableEq

/-- The all-empty data sample a freshly constructed driver caches. -/
def DriverDataSample.empty : DriverDataSample :=
  { suitName := ""
    relativeTime := 0
    absoluteTime := 0
    links := []
    sensors := []
    joints := [] }

/-- Modelled from the spec: the constructor
XSensMVNDriver(const DriverConfiguration conf). The driver starts
Disconnected, with the minimum acceptable calibration quality and body
dimensions taken from the configuration, no suit labels yet, and empty
sample buffers. -/
def mkDriver (conf : DriverConfiguration) : DriverState :=
  { config := conf
    status := DriverStatus.Disconnected
    minQuality := conf.minimumRequiredCalibrationQuality
    bodyDims := conf.bodyDimensions
    linkLabels := []
    sensorLabels := []
    jointLabels := []
    producerSample := DriverDataSample.empty
    cachedSample := DriverDataSample.empty }

/- ------------------------------------------------------------------ -/
/- Vendor capability boundary                                          -/
/- ------------------------------------------------------------------ -/

/-- Modelled from the spec: the outcome of the vendor scan and connect
primitive that configureAndConnect drives (license validation, whether
a suit was found within the scan timeout, and the suit configuration
discovered on success, which fixes the label ordering). -/
structure VendorScanOutcome where
  licenseValid : Bool
  suitFound : Bool
  suitName : String
  linkNames : List String
  sensorNames : List String
  jointNames : List String

/- ------------------------------------------------------------------ -/
/- Lifecycle operations (spec section 4.1)                             -/
/- ------------------------------------------------------------------ -/

/-- Modelled from the spec: bool configureAndConnect(). Valid only from
Disconnected; fails if license validation fails; on finding a suit
within the scan timeout transitions to Connected and fixes the label
ordering from the discovered suit configuration; on timeout or scan
failure returns to Disconnected and reports failure. The transient
Scanning status lives inside the blocking call and is not observable
after it returns. -/
def configureAndConnect (env : VendorScanOutcome) (s : DriverState) :
    Bool × DriverState :=
  if s.status = DriverStatus.Disconnected then
    if env.licenseValid then
      if env.suitFound then
        (true,
          { s with
              status := DriverStatus.Connected
              linkLabels := env.linkNames
              sensorLabels := env.sensorNames
              jointLabels := env.jointNames })
      else (false, s)
    else (false, s)
  else (false, s)

/-- Modelled from the spec: bool terminate(). Valid from any state;
releases the vendor connection and transitions to Disconnected;
safe to call multiple times. -/
def terminate (s : DriverState) : Bool × DriverState :=
  (true, { s with status := DriverStatus.Disconnected })

/-- Modelled from the spec: bool calibrate(const std::string&). Valid
only from Connected or CalibratedAndReadyToRecord. The vendor routine
is run with calibrationType if non-empty, otherwise the configured
default; its completed outcome is the reported quality grade. If the
reported quality is acceptable against the current minimum the driver
transitions to CalibratedAndReadyToRecord and reports success,
otherwise it remains Connected and reports failure; the driver never
retries on its own. -/
def calibrate (calibrationType : String) (reported : CalibrationQuality)
    (s : DriverState) : Bool × DriverState :=
  if s.status = DriverStatus.Connected ∨
      s.status = DriverStatus.CalibratedAndReadyToRecord then
    if isAcceptable reported s.minQuality then
      (true, { s with status := DriverStatus.CalibratedAndReadyToRecord })
    else
      (false, { s with status := DriverStatus.Connected })
  else (false, s)

/-- The calibration type actually passed to the vendor routine:
calibrationType if non-empty, otherwise the configured default
(spec section 4.1). -/
def usedCalibrationType (calibrationType : String) (s : DriverState) : String :=
  if calibrationType = "" then s.config.defaultCalibrationType
  else calibrationType

/-- Modelled from the spec: bool abortCalibration(). Cancels an
in-progress vendor calibration and returns to Connected; a no-op
success when not currently calibrating (idempotent safety). -/
def abortCalibration (s : DriverState) : Bool × DriverState :=
  if s.status = DriverStatus.Calibrating then
    (true, { s with status := DriverStatus.Connected })
  else (true, s)

/-- Modelled from the spec: bool startAcquisition(). Valid only from
CalibratedAndReadyToRecord; begins the streaming session and
transitions to Recording. -/
def startAcquisition (s : DriverState) : Bool × DriverState :=
  if s.status = DriverStatus.CalibratedAndReadyToRecord then
    (true, { s with status := DriverStatus.Recording })
  else (false, s)

/-- Modelled from the spec: bool stopAcquisition(). Valid only from
Recording; ends streaming and transitions back to
CalibratedAndReadyToRecord. -/
def stopAcquisition (s : DriverState) : Bool × DriverState :=
  if s.status = DriverStatus.Recording then
    (true, { s with status := DriverStatus.CalibratedAndReadyToRecord })
  else (false, s)

/-- Modelled from the spec: bool setBodyDimensions(const std::map&).
The stored body dimensions may be replaced only while the status is
Connected; from any other status the call fails and changes nothing. -/
def setBodyDimensions (dims : BodyDimensions) (s : DriverState) :
    Bool × DriverState :=
  if s.status = DriverStatus.Connected then
    (true, { s with bodyDims := dims })
  else (false, s)

/-- Modelled from the spec: bool setMinimumAcceptableCalibrationQuality,
mutable post-construction, taking effect on the next calibration
evaluation. -/
def setMinimumAcceptableCalibrationQuality (quality : CalibrationQuality)
    (s : DriverState) : Bool × DriverState :=
  (true, { s with minQuality := quality })

/- ------------------------------------------------------------------ -/
/- Sample cache (spec section 4.3)                                     -/
/- ------------------------------------------------------------------ -/

/-- Modelled from the spec: the asynchronous vendor streaming callback
writing one frame into the producer-side buffer. -/
def producerDeliver (d : DriverDataSample) (s : DriverState) : DriverState :=
  { s with producerSample := d }

/-- Modelled from the spec: void cacheData(), the single explicit
synchronization point, atomically copying the producer buffer into the
consumer-visible cached sample m_dataSample. -/
def cacheData (s : DriverState) : DriverState :=
  { s with cachedSample := s.producerSample }

/- ------------------------------------------------------------------ -/
/- Accessors (const members of XSensMVNDriver)                         -/
/- ------------------------------------------------------------------ -/

/-- Modelled from the spec: const DriverDataSample& getDataSample(),
reading the cached sample m_dataSample. -/
def getDataSample (s : DriverState) : DriverDataSample :=
  s.cachedSample

/-- Modelled from the spec: const std::vector of LinkData&
getLinkDataSample(), the links field of the cached sample. -/
def getLinkDataSample (s : DriverState) : List LinkData :=
  s.cachedSample.links

/-- Modelled from the spec: getSensorDataSample(), the sensors field of
the cached sample. -/
def getSensorDataSample (s : DriverState) : List SensorData :=
  s.cachedSample.sensors

/-- Modelled from the spec: getJointDataSample(), the joints field of
the cached sample. -/
def getJointDataSample (s : DriverState) : List JointData :=
  s.cachedSample.joints

/-- Modelled from the spec: std::string getSuitName(). -/
def getSuitName (s : DriverState) : String :=
  s.cachedSample.suitName

/-- Modelled from the spec: double getSampleRelativeTime(). -/
def getSampleRelativeTime (s : DriverState) : Rat :=
  s.cachedSample.relativeTime

/-- Modelled from the spec: double getSampleAbsoluteTime(). -/
def getSampleAbsoluteTime (s : DriverState) : Rat :=
  s.cachedSample.absoluteTime

/-- Modelled from the spec: getSuitLinkLabels(), the fixed link name
ordering established at connection time. -/
def getSuitLinkLabels (s : DriverState) : List String :=
  s.linkLabels

/-- Modelled from the spec: getSuitSensorLabels(). -/
def getSuitSensorLabels (s : DriverState) : List String :=
  s.sensorLabels

/-- Modelled from the spec: getSuitJointLabels(). -/
def getSuitJointLabels (s : DriverState) : List String :=
  s.jointLabels

/-- Modelled from the spec: DriverStatus getStatus(). -/
def getStatus (s : DriverState) : DriverStatus :=
  s.status

/-- Modelled from the spec: getMinimumAcceptableCalibrationQuality(). -/
def getMinimumAcceptableCalibrationQuality (s : DriverState) :
    CalibrationQuality :=
  s.minQuality

/-- Modelled from the spec: bool getBodyDimensions(std::map&), reading
the stored body dimensions; permitted in every state. -/
def getBodyDimensions (s : DriverState) : BodyDimensions :=
  s.bodyDims

/-- Modelled from the spec: bool getBodyDimension(std::string, double&),
looking one body segment up in the stored dimensions; permitted in
every state. -/
def getBodyDimension (bodyName : String) (s : DriverState) : Option Rat :=
  s.bodyDims.lookup bodyName

/- ------------------------------------------------------------------ -/
/- State machine validity (spec section 4.1)                           -/
/- ------------------------------------------------------------------ -/

/-- The guarded lifecycle operations of the facade, with their vendor
inputs. -/
inductive DriverOp
  | opConfigureAndConnect (env : VendorScanOutcome)
  | opCalibrate (calibrationType : String) (reported : CalibrationQuality)
  | opAbortCalibration
  | opStartAcquisition
  | opStopAcquisition
  | opSetBodyDimensions (dims : BodyDimensions)

/-- Dispatch a lifecycle operation to its model function. -/
def applyOp : DriverOp → DriverState → Bool × DriverState
  | DriverOp.opConfigureAndConnect env, s => configureAndConnect env s
  | DriverOp.opCalibrate ct r, s => calibrate ct r s
  | DriverOp.opAbortCalibration, s => abortCalibration s
  | DriverOp.opStartAcquisition, s => startAcquisition s
  | DriverOp.opStopAcquisition, s => stopAcquisition s
  | DriverOp.opSetBodyDimensions dims, s => setBodyDimensions dims s

/-- The validity table of spec section 4.1: from which status each
operation is listed as valid. configureAndConnect only from
Disconnected; calibrate from Connected or CalibratedAndReadyToRecord;
abortCalibration from every status, since section 4.1 specifies no-op
success whenever the driver is not calibrating; startAcquisition only
from CalibratedAndReadyToRecord; stopAcquisition only from Recording;
setBodyDimensions only from Connected. -/
def validFrom : DriverOp → DriverStatus → Bool
  | DriverOp.opConfigureAndConnect _, st => st = DriverStatus.Disconnected
  | DriverOp.opCalibrate _ _, st =>
      st = DriverStatus.Connected ∨
        st = DriverStatus.CalibratedAndReadyToRecord
  | DriverOp.opAbortCalibration, _ => true
  | DriverOp.opStartAcquisition, st =>
      st = DriverStatus.CalibratedAndReadyToRecord
  | DriverOp.opStopAcquisition, st => st = DriverStatus.Recording
  | DriverOp.opSetBodyDimensions _, st => st = DriverStatus.Connected

/- ------------------------------------------------------------------ -/
/- Session semantics for one connection (spec sections 3 and 4.3)      -/
/- ------------------------------------------------------------------ -/

/-- The delivered frame carries link, sensor and joint names equal, in
order, to the label lists of the driver state. This is the data-model
invariant of spec section 3: the three sequences of a DriverSample have
names fixed once the suit configuration is known, unchanged across
samples within one session. -/
def matchesLabels (d : DriverDataSample) (s : DriverState) : Prop :=
  d.links.map LinkData.name = s.linkLabels ∧
  d.sensors.map SensorData.name = s.sensorLabels ∧
  d.joints.map JointData.name = s.jointLabels

instance (d : DriverDataSample) (s : DriverState) :
    Decidable (matchesLabels d s) := by
  unfold matchesLabels; infer_instance

/-- One step of activity within a single connection: a vendor frame
delivery (satisfying the section 3 invariant on its names), a cache
commit, or any facade operation other than configureAndConnect and
terminate (which open and close the connection). -/
inductive SessionStep : DriverState → DriverState → Prop
  | deliver (s : DriverState) (d : DriverDataSample) (hd : matchesLabels d s) :
      SessionStep s (producerDeliver d s)
  | cache (s : DriverState) : SessionStep s (cacheData s)
  | calib (s : DriverState) (ct : String) (r : CalibrationQuality) :
      SessionStep s (calibrate ct r s).2
  | abort (s : DriverState) : SessionStep s (abortCalibration s).2
  | start (s : DriverState) : SessionStep s (startAcquisition s).2
  | stop (s : DriverState) : SessionStep s (stopAcquisition s).2
  | setDims (s : DriverState) (dims : BodyDimensions) :
      SessionStep s (setBodyDimensions dims s).2
  | setMin (s : DriverState) (q : CalibrationQuality) :
      SessionStep s (setMinimumAcceptableCalibrationQuality q s).2

/-- Every within-session step leaves the three label lists unchanged. -/
theorem sessionStep_labels {s s' : DriverState} (h : SessionStep s s') :
    s'.linkLabels = s.linkLabels ∧ s'.sensorLabels = s.sensorLabels ∧
      s'.jointLabels = s.jointLabels := by
  cases h with
  | deliver d hd => exact ⟨rfl, rfl, rfl⟩
  | cache => exact ⟨rfl, rfl, rfl⟩
  | calib ct r =>
      unfold calibrate
      by_cases h1 : s.status = DriverStatus.Connected ∨
          s.status = DriverStatus.CalibratedAndReadyToRecord
      · by_cases h2 : isAcceptable r s.minQuality = true <;> simp [h1, h2]
      · simp [h1]
  | abort =>
      unfold abortCalibration
      by_cases h1 : s.status = DriverStatus.Calibrating <;> simp [h1]
  | start =>
      unfold startAcquisition
      by_cases h1 : s.status = DriverStatus.CalibratedAndReadyToRecord <;>
        simp [h1]
  | stop =>
      unfold stopAcquisition
      by_cases h1 : s.status = DriverStatus.Recording <;> simp [h1]
  | setDims dims =>
      unfold setBodyDimensions
      by_cases h1 : s.status = DriverStatus.Connected <;> simp [h1]
  | setMin q => exact ⟨rfl, rfl, rfl⟩

/- ------------------------------------------------------------------ -/
/- Concrete states used by the witnesses                               -/
/- ------------------------------------------------------------------ -/

/-- A concrete driver configuration. -/
def testConfig : DriverConfiguration :=
  { licensePath := "license.dat"
    suitConfiguration := "FullBody"
    acquisitionScenario := "Default"
    defaultCalibrationType := "Npose"
    minimumRequiredCalibrationQuality := CalibrationQuality.Good
    scanTimeout := 5
    bodyDimensions := [("armSpan", 170)]
    dataStreamConfiguration :=
      { enableLinkData := true
        enableSensorData := true
        enableJointData := true } }

/-- A freshly constructed driver (status Disconnected). -/
def testDriver : DriverState := mkDriver testConfig

/-- The test driver moved to Connected. -/
def testConnected : DriverState :=
  { testDriver with status := DriverStatus.Connected }

/-- The test driver moved to Calibrating. -/
def testCalibrating : DriverState :=
  { testDriver with status := DriverStatus.Calibrating }

/-- The test driver moved to Recording. -/
def testRecording : DriverState :=
  { testDriver with status := DriverStatus.Recording }

/-- A connected driver whose label lists name one link, one sensor and
one joint. -/
def testConnectedWithLabels : DriverState :=
  { testConnected with
      linkLabels := ["Pelvis"]
      sensorLabels := ["Imu1"]
      jointLabels := ["Hip"] }

/-- A concrete streamed frame whose names match
testConnectedWithLabels. -/
def testSample : DriverDataSample :=
  { suitName := "suit1"
    relativeTime := 1
    absoluteTime := 100
    links := [{ name := "Pelvis"
                position := (0, 0, 1)
                linearVelocity := (0, 0, 0)
                linearAcceleration := (0, 0, 0)
                orientation := (1, 0, 0, 0)
                angularVelocity := (0, 0, 0)
                angularAcceleration := (0, 0, 0) }]
    sensors := [{ name := "Imu1"
                  position := (0, 0, 1)
                  orientation := (1, 0, 0, 0)
                  freeBodyAcceleration := (0, 0, 0)
                  magneticField := (0, 0, 0) }]
    joints := [{ name := "Hip"
                 jointAngles := (0, 0, 0) }] }

/- ------------------------------------------------------------------ -/
/- Claim theorems                                                      -/
/- ------------------------------------------------------------------ -/

/-- C1: for every driver state and every lifecycle operation that is not
listed as valid from the current status in the section 4.1 state
machine, invoking the operation returns failure and leaves the whole
driver state unchanged. -/
theorem invalid_op_rejected (op : DriverOp) (s : DriverState)
    (h : validFrom op s.status = false) : applyOp op s = (false, s) := by
  cases op with
  | opConfigureAndConnect env =>
      simp only [validFrom, decide_eq_false_iff_not] at h
      simp [applyOp, configureAndConnect, h]
  | opCalibrate ct r =>
      simp only [validFrom, decide_eq_false_iff_not] at h
      simp [applyOp, calibrate, h]
  | opAbortCalibration => simp [validFrom] at h
  | opStartAcquisition =>
      simp only [validFrom, decide_eq_false_iff_not] at h
      simp [applyOp, startAcquisition, h]
  | opStopAcquisition =>
      simp only [validFrom, decide_eq_false_iff_not] at h
      simp [applyOp, stopAcquisition, h]
  | opSetBodyDimensions dims =>
      simp only [validFrom, decide_eq_false_iff_not] at h
      simp [applyOp, setBodyDimensions, h]

/-- Witness for C1: startAcquisition invoked on a freshly constructed
(Disconnected) driver is invalid, fails, and changes nothing. -/
theorem invalid_op_rejected_witness :
    validFrom DriverOp.opStartAcquisition testDriver.status = false ∧
      applyOp DriverOp.opStartAcquisition testDriver = (false, testDriver) :=
  ⟨by decide, invalid_op_rejected DriverOp.opStartAcquisition testDriver
    (by decide)⟩

/-- C2: terminate is valid from every state and idempotent: both of two
consecutive calls succeed, each leaves the status Disconnected, and the
second call does not change the state further. -/
theorem terminate_idempotent (s : DriverState) :
    (terminate s).1 = true ∧
    ((terminate s).2).status = DriverStatus.Disconnected ∧
    (terminate ((terminate s).2)).1 = true ∧
    ((terminate ((terminate s).2)).2).status = DriverStatus.Disconnected ∧
    (terminate ((terminate s).2)).2 = (terminate s).2 :=
  ⟨rfl, rfl, rfl, rfl, rfl⟩

/-- C3: calibrate invoked from Connected with a reported quality ranked
below the configured minimum returns failure and leaves the status
Connected; in fact the whole state is unchanged, so nothing is
transitioned and nothing is retried by the driver. -/
theorem calibrate_low_quality_fails (ct : String) (r : CalibrationQuality)
    (s : DriverState) (hc : s.status = DriverStatus.Connected)
    (hq : qualityRank r < qualityRank s.minQuality) :
    (calibrate ct r s).1 = false ∧
      ((calibrate ct r s).2).status = DriverStatus.Connected ∧
      (calibrate ct r s).2 = s := by
  have hacc : isAcceptable r s.minQuality = false := by
    simp only [isAcceptable, decide_eq_false_iff_not]
    omega
  have hcond : s.status = DriverStatus.Connected ∨
      s.status = DriverStatus.CalibratedAndReadyToRecord := Or.inl hc
  have hs : ({ s with status := DriverStatus.Connected } : DriverState) = s := by
    rw [← hc]
  refine ⟨?_, ?_, ?_⟩ <;> simp [calibrate, hcond, hacc, hs, hc]

/-- Witness for C3: the minimum is Good, the vendor reports Acceptable,
the call fails and the driver stays Connected. -/
theorem calibrate_low_quality_fails_witness :
    testConnected.status = DriverStatus.Connected ∧
    qualityRank CalibrationQuality.Acceptable <
      qualityRank testConnected.minQuality ∧
    (calibrate "" CalibrationQuality.Acceptable testConnected).1 = false ∧
    ((calibrate "" CalibrationQuality.Acceptable testConnected).2).status =
      DriverStatus.Connected ∧
    (calibrate "" CalibrationQuality.Acceptable testConnected).2 =
      testConnected :=
  ⟨by decide, by decide,
    calibrate_low_quality_fails "" CalibrationQuality.Acceptable testConnected
      (by decide) (by decide)⟩

/-- C4: the acceptance predicate holds exactly when the reported quality
is ranked at or above the minimum, and acceptance is monotone in the
threshold: lowering the minimum never rejects a previously accepted
quality. -/
theorem isAcceptable_iff_rank_and_monotone :
    (∀ reported minimum : CalibrationQuality,
        isAcceptable reported minimum = true ↔
          qualityRank minimum ≤ qualityRank reported) ∧
    (∀ q m mLow : CalibrationQuality, isAcceptable q m = true →
        qualityRank mLow ≤ qualityRank m → isAcceptable q mLow = true) := by
  constructor
  · intro reported minimum
    simp [isAcceptable]
  · intro q m mLow h1 h2
    simp only [isAcceptable, decide_eq_true_eq] at h1 ⊢
    omega

/-- Witness for C4: Good is accepted at minimum Acceptable, and since
Failed ranks below Acceptable, Good is also accepted at minimum
Failed. -/
theorem isAcceptable_iff_rank_and_monotone_witness :
    isAcceptable CalibrationQuality.Good CalibrationQuality.Acceptable = true ∧
    qualityRank CalibrationQuality.Failed ≤
      qualityRank CalibrationQuality.Acceptable ∧
    isAcceptable CalibrationQuality.Good CalibrationQuality.Failed = true :=
  ⟨by decide, by decide,
    isAcceptable_iff_rank_and_monotone.2 CalibrationQuality.Good
      CalibrationQuality.Acceptable CalibrationQuality.Failed (by decide)
      (by decide)⟩

/-- C5: abortCalibration outside Calibrating is a no-op success (the
state is returned unchanged), while from Calibrating it succeeds and
leaves the status Connected. -/
theorem abortCalibration_noop_or_cancel (s : DriverState) :
    (s.status ≠ DriverStatus.Calibrating →
      abortCalibration s = (true, s)) ∧
    (s.status = DriverStatus.Calibrating →
      (abortCalibration s).1 = true ∧
        ((abortCalibration s).2).status = DriverStatus.Connected) := by
  constructor
  · intro h
    simp [abortCalibration, h]
  · intro h
    simp [abortCalibration, h]

/-- Witness for C5: from Connected the call is a no-op success; from
Calibrating it succeeds and lands in Connected. -/
theorem abortCalibration_noop_or_cancel_witness :
    (testConnected.status ≠ DriverStatus.Calibrating ∧
      abortCalibration testConnected = (true, testConnected)) ∧
    (testCalibrating.status = DriverStatus.Calibrating ∧
      (abortCalibration testCalibrating).1 = true ∧
      ((abortCalibration testCalibrating).2).status =
        DriverStatus.Connected) :=
  ⟨⟨by decide,
      (abortCalibration_noop_or_cancel testConnected).1 (by decide)⟩,
    ⟨by decide,
      (abortCalibration_noop_or_cancel testCalibrating).2 (by decide)⟩⟩

/-- C6: with no intervening producer write, a second cacheData call
leaves the consumer-visible cached sample identical: every data and
metadata accessor returns after the second call exactly what it
returned after the first. -/
theorem cacheData_idempotent_no_new_data (s : DriverState) :
    getDataSample (cacheData (cacheData s)) = getDataSample (cacheData s) ∧
    getLinkDataSample (cacheData (cacheData s)) =
      getLinkDataSample (cacheData s) ∧
    getSensorDataSample (cacheData (cacheData s)) =
      getSensorDataSample (cacheData s) ∧
    getJointDataSample (cacheData (cacheData s)) =
      getJointDataSample (cacheData s) ∧
    getSuitName (cacheData (cacheData s)) = getSuitName (cacheData s) ∧
    getSampleRelativeTime (cacheData (cacheData s)) =
      getSampleRelativeTime (cacheData s) ∧
    getSampleAbsoluteTime (cacheData (cacheData s)) =
      getSampleAbsoluteTime (cacheData s) :=
  ⟨rfl, rfl, rfl, rfl, rfl, rfl, rfl⟩

/-- C7: the label lists are fixed across any run of within-session
steps, and for every frame delivered during the session (its names
matching the connection-time labels, per the section 3 data-model
invariant), once cached, each label accessor returns exactly the names,
in order, of the corresponding sequence of the cached sample. -/
theorem labels_fixed_and_roundtrip (s0 s1 : DriverState)
    (d : DriverDataSample)
    (hsess : Relation.ReflTransGen SessionStep s0 s1)
    (hd : matchesLabels d s0) :
    (s1.linkLabels = s0.linkLabels ∧ s1.sensorLabels = s0.sensorLabels ∧
      s1.jointLabels = s0.jointLabels) ∧
    (getSuitLinkLabels (cacheData (producerDeliver d s1)) =
        (getLinkDataSample (cacheData (producerDeliver d s1))).map
          LinkData.name ∧
      getSuitSensorLabels (cacheData (producerDeliver d s1)) =
        (getSensorDataSample (cacheData (producerDeliver d s1))).map
          SensorData.name ∧
      getSuitJointLabels (cacheData (producerDeliver d s1)) =
        (getJointDataSample (cacheData (producerDeliver d s1))).map
          JointData.name) := by
  have hlab : s1.linkLabels = s0.linkLabels ∧
      s1.sensorLabels = s0.sensorLabels ∧
      s1.jointLabels = s0.jointLabels := by
    induction hsess with
    | refl => exact ⟨rfl, rfl, rfl⟩
    | tail hab hbc ih =>
        have hstep := sessionStep_labels hbc
        exact ⟨hstep.1.trans ih.1, hstep.2.1.trans ih.2.1,
          hstep.2.2.trans ih.2.2⟩
  refine ⟨hlab, ?_, ?_, ?_⟩
  · show s1.linkLabels = d.links.map LinkData.name
    rw [hlab.1, ← hd.1]
  · show s1.sensorLabels = d.sensors.map SensorData.name
    rw [hlab.2.1, ← hd.2.1]
  · show s1.jointLabels = d.joints.map JointData.name
    rw [hlab.2.2, ← hd.2.2]

/-- Witness for C7: the empty session run at a connected driver with
one link, one sensor and one joint label, and a matching frame. -/
theorem labels_fixed_and_roundtrip_witness :
    matchesLabels testSample testConnectedWithLabels ∧
    getSuitLinkLabels
        (cacheData (producerDeliver testSample testConnectedWithLabels)) =
      (getLinkDataSample
        (cacheData (producerDeliver testSample testConnectedWithLabels))).map
          LinkData.name ∧
    getSuitSensorLabels
        (cacheData (producerDeliver testSample testConnectedWithLabels)) =
      (getSensorDataSample
        (cacheData (producerDeliver testSample testConnectedWithLabels))).map
          SensorData.name ∧
    getSuitJointLabels
        (cacheData (producerDeliver testSample testConnectedWithLabels)) =
      (getJointDataSample
        (cacheData (producerDeliver testSample testConnectedWithLabels))).map
          JointData.name :=
  ⟨by decide,
    (labels_fixed_and_roundtrip testConnectedWithLabels
      testConnectedWithLabels testSample Relation.ReflTransGen.refl
      (by decide)).2⟩

/-- C8: setBodyDimensions succeeds only while Connected; in particular
from Recording it fails and leaves the state, hence the stored body
dimensions, unchanged. The getters are pure functions of the state and
are defined, hence permitted, in every state. -/
theorem setBodyDimensions_only_connected (dims : BodyDimensions)
    (s : DriverState) :
    ((setBodyDimensions dims s).1 = true →
      s.status = DriverStatus.Connected) ∧
    (s.status = DriverStatus.Recording →
      setBodyDimensions dims s = (false, s) ∧
      getBodyDimensions ((setBodyDimensions dims s).2) =
        getBodyDimensions s ∧
      ∀ bodyName, getBodyDimension bodyName ((setBodyDimensions dims s).2) =
        getBodyDimension bodyName s) := by
  constructor
  · intro h
    by_cases hc : s.status = DriverStatus.Connected
    · exact hc
    · simp [setBodyDimensions, hc] at h
  · intro h
    have hc : ¬s.status = DriverStatus.Connected := by
      rw [h]; intro hcontra; cases hcontra
    simp [setBodyDimensions, hc]

/-- Witness for C8: setBodyDimensions on a Recording driver fails and
the dimensions read back unchanged. -/
theorem setBodyDimensions_only_connected_witness :
    testRecording.status = DriverStatus.Recording ∧
    setBodyDimensions [] testRecording = (false, testRecording) ∧
    getBodyDimensions ((setBodyDimensions [] testRecording).2) =
      getBodyDimensions testRecording ∧
    ∀ bodyName, getBodyDimension bodyName
        ((setBodyDimensions [] testRecording).2) =
      getBodyDimension bodyName testRecording :=
  ⟨by decide,
    (setBodyDimensions_only_connected [] testRecording).2 (by decide)⟩

/-- C9: setMinimumAcceptableCalibrationQuality succeeds, the getter then
returns the new minimum, the status (hence any already-accepted
calibration) is untouched, and the next calibrate call from a valid
state evaluates the reported quality against the new minimum. -/
theorem setMinimumQuality_effective_not_retroactive (s : DriverState)
    (q : CalibrationQuality) :
    (setMinimumAcceptableCalibrationQuality q s).1 = true ∧
    getMinimumAcceptableCalibrationQuality
        ((setMinimumAcceptableCalibrationQuality q s).2) = q ∧
    ((setMinimumAcceptableCalibrationQuality q s).2).status = s.status ∧
    (∀ ct r, s.status = DriverStatus.Connected ∨
        s.status = DriverStatus.CalibratedAndReadyToRecord →
      (calibrate ct r
          ((setMinimumAcceptableCalibrationQuality q s).2)).1 =
        isAcceptable r q) := by
  refine ⟨rfl, rfl, rfl, ?_⟩
  intro ct r h
  by_cases hacc : isAcceptable r q = true <;>
    simp [calibrate, setMinimumAcceptableCalibrationQuality, h, hacc]

/-- Witness for C9: on a Connected driver constructed with minimum Good,
raising the minimum to Excellent makes a Good report fail the next
evaluation. -/
theorem setMinimumQuality_effective_not_retroactive_witness :
    (setMinimumAcceptableCalibrationQuality CalibrationQuality.Excellent
        testConnected).1 = true ∧
    getMinimumAcceptableCalibrationQuality
        ((setMinimumAcceptableCalibrationQuality CalibrationQuality.Excellent
          testConnected).2) = CalibrationQuality.Excellent ∧
    ((setMinimumAcceptableCalibrationQuality CalibrationQuality.Excellent
        testConnected).2).status = testConnected.status ∧
    (calibrate "" CalibrationQuality.Good
        ((setMinimumAcceptableCalibrationQuality CalibrationQuality.Excellent
          testConnected).2)).1 =
      isAcceptable CalibrationQuality.Good CalibrationQuality.Excellent := by
  have h := setMinimumQuality_effective_not_retroactive testConnected
    CalibrationQuality.Excellent
  exact ⟨h.1, h.2.1, h.2.2.1,
    h.2.2.2 "" CalibrationQuality.Good (Or.inl (by decide))⟩

/-- C10: between cacheData calls every per-field accessor reads the one
cached sample coherently: the link, sensor and joint accessors return
exactly the corresponding fields of getDataSample, and the metadata
accessors return its suitName, relativeTime and absoluteTime; all
accessors are pure functions of the state, so none mutates the cached
sample or the status. -/
theorem accessors_coherent (s : DriverState) :
    getLinkDataSample s = (getDataSample s).links ∧
    getSensorDataSample s = (getDataSample s).sensors ∧
    getJointDataSample s = (getDataSample s).joints ∧
    getSuitName s = (getDataSample s).suitName ∧
    getSampleRelativeTime s = (getDataSample s).relativeTime ∧
    getSampleAbsoluteTime s = (getDataSample s).absoluteTime :=
  ⟨rfl, rfl, rfl, rfl, rfl, rfl⟩

end xsensmvn
